import Mathlib

/-!
Shallow embedding of the disk I/O capability layer of the raft storage
engine (src/uv_os.c and src/heap.c), together with theorems settling the
specification claims about it.

Kernel/filesystem behaviour (syscall outcomes) is modelled by explicit
environment records passed to each embedded function; heap activity is
modelled by a trace of the allocator entry points invoked.
-/

/- Linux errno values used by the probed code. -/

def Eintr : Nat := 4

def Eio : Nat := 5

def Eagain : Nat := 11

def Einval : Nat := 22

def Enospc : Nat := 28

def Eopnotsupp : Nat := 95

/- Filesystem magic numbers recognised by probeDirectIO (src/uv_os.c:238-239). -/

def TMPFS_MAGIC : Nat := 0x01021994

def ZFS_MAGIC : Nat := 0x2fc12fc1

/-! ## Allocator indirection (src/heap.c)

A pointer is either NULL or a valid address.  An allocator table holds the
six slots of `struct raft_heap` plus the opaque `data` context; each slot is
modelled by the effect (an arbitrary value of type `ε`) that invoking it
produces, and an embedded heap operation returns the list of slot
invocations it performs, in order (`[]` = no slot invoked). -/

inductive Ptr where
  | null
  | valid (id : Nat)
  deriving DecidableEq

structure raft_heap (ε : Type) where
  data : Nat
  mallocSlot : Nat → Nat → ε
  freeSlot : Nat → Ptr → ε
  callocSlot : Nat → Nat → Nat → ε
  reallocSlot : Nat → Ptr → Nat → ε
  alignedAllocSlot : Nat → Nat → Nat → ε
  alignedFreeSlot : Nat → Nat → Ptr → ε

/-- src/heap.c:69-75: `heapFree` returns without touching the table when the
pointer is NULL, and otherwise invokes the free slot on it. -/
def heapFree {ε : Type} (h : raft_heap ε) (ptr : Ptr) : List ε :=
  if ptr = Ptr.null then [] else [h.freeSlot h.data ptr]

/-- src/heap.c:92-95: `raft_free` forwards to `heapFree`. -/
def raft_free {ε : Type} (h : raft_heap ε) (ptr : Ptr) : List ε :=
  heapFree h ptr

/-- src/heap.c:112-115: `raft_aligned_free` invokes the aligned_free slot
unconditionally, with whatever pointer it was given. -/
def raft_aligned_free {ε : Type} (h : raft_heap ε) (alignment : Nat) (ptr : Ptr) : List ε :=
  [h.alignedFreeSlot h.data alignment ptr]

/-! ## File operation facade -/

/-- Outcome of the single underlying `read` call in `uvReadFully`:
either -1 with an errno, or a byte count. -/
inductive ReadOutcome where
  | err (errno : Nat)
  | ok (nread : Nat)
  deriving DecidableEq

/-- Result of `uvReadFully`: 0, or UV__ERROR with a message built by
`uvSysErrMsg(syscall, -errno)`, or UV__NODATA with a message carrying the
actual and requested byte counts ("short read: %d bytes instead of %ld"). -/
inductive ReadFullyOut where
  | ok
  | uvError (syscall : String) (errno : Nat)
  | nodata (actual : Nat) (requested : Nat)
  deriving DecidableEq

/-- src/uv_os.c:198-212: `uvReadFully` issues one read of `n` bytes. -/
def uvReadFully (n : Nat) (r : ReadOutcome) : ReadFullyOut :=
  match r with
  | .err e => .uvError "read" e
  | .ok rv => if rv < n then .nodata rv n else .ok

/-- src/uv_os.c:34-47: `UvOsFallocate` calls `posix_fallocate` once (its
return value `rv` is an error number, 0 on success) and negates any nonzero
result for the caller.  There is no emulation fallback in this source. -/
def UvOsFallocate (rv : Nat) : Int :=
  if rv ≠ 0 then -(rv : Int) else 0

/-! ## Async I/O syscall wrappers -/

/-- One call of the underlying `io_getevents` syscall: a number of events,
or -1 with an errno. -/
inductive SysOutcome where
  | ok (rv : Nat)
  | err (errno : Nat)
  deriving DecidableEq

/-- The retry loop of src/uv_os.c:141-143: repeat the syscall while it fails
with Eintr.  The list holds the successive syscall outcomes; `none` means the
list was exhausted while still interrupted (the C loop would keep calling). -/
def ioGeteventsRetry : List SysOutcome → Option SysOutcome
  | [] => none
  | .err e :: rest => if e = Eintr then ioGeteventsRetry rest else some (.err e)
  | .ok rv :: _ => some (.ok rv)

/-- src/uv_os.c:134-151: `UvOsIoGetevents` retries on Eintr, returns `-errno`
on any other failure, and otherwise returns the event count, asserting it
lies within `[min_nr, max_nr]` (`none` = no return: endless retry or an
assertion abort). -/
def UvOsIoGetevents (min_nr max_nr : Nat) (calls : List SysOutcome) : Option Int :=
  match ioGeteventsRetry calls with
  | none => none
  | some (.err e) => some (-(e : Int))
  | some (.ok rv) => if min_nr ≤ rv ∧ rv ≤ max_nr then some (rv : Int) else none

/-! ## Capability probe engine (src/uv_os.c:214-434)

Environments describe the outcomes the kernel gives to each syscall the
probe performs; results carry, besides the returned value, the trace of
allocator entry points invoked (`HeapEvent`) and, for the direct-I/O loop,
the candidate sizes attempted. -/

/-- An invocation of one of the heap entry points used by the probe:
`raft_aligned_alloc(alignment, size)`, `raft_free` (the plain free path),
or `raft_aligned_free(alignment, ptr)`. -/
inductive HeapEvent where
  | allocAligned (alignment size : Nat)
  | freePlain
  | freeAligned (alignment : Nat)
  deriving DecidableEq

/-- True exactly on `freeAligned` events. -/
def isFreeAligned : HeapEvent → Bool
  | .freeAligned _ => true
  | _ => false

/-- True exactly on `freePlain` events. -/
def isFreePlain : HeapEvent → Bool
  | .freePlain => true
  | _ => false

/-- Classified error results of the probe functions: UV__ERROR together
with the message written into `errmsg` (`uvSysErrMsg(syscall, -errno)`,
a plain `errMsgPrintf` text, or the unsupported-filesystem report). -/
inductive UvErr where
  | syscallErr (syscall : String) (errno : Nat)
  | msgErr (msg : String)
  | unsupportedFs (ftype : Nat)
  deriving DecidableEq

/-- Outcome of the probe write `write(fd, buf, size)`: `n` bytes written
(a return of `n ≥ 0`), or -1 with the given errno. -/
inductive WriteOutcome where
  | wrote (n : Nat)
  | fail (errno : Nat)
  deriving DecidableEq

/-- Kernel behaviour seen by `probeDirectIo`: the result of enabling
O_DIRECT via fcntl (`none` = success), the result of `fstatfs` (errno or
`f_type`), whether `raft_aligned_alloc` returns NULL at a given size, and
the probe write outcome at a given size. -/
structure DirectEnv where
  fcntlErr : Option Nat
  fstatfsRes : Except Nat Nat
  allocFails : Nat → Bool
  write : Nat → WriteOutcome

/-- Return of `probeDirectIO`: success with the probed block size, an
error, or an assertion failure (`assert(rv == (int)(*size))` /
`assert(rv == -1)` aborting the process). -/
inductive DirectOut where
  | ok (size : Nat)
  | error (e : UvErr)
  | fault
  deriving DecidableEq

/-- Result record of the direct-I/O probe: returned value, heap trace, and
the candidate sizes at which a probe write was attempted, in order. -/
structure LoopRes where
  out : DirectOut
  heap : List HeapEvent
  attempts : List Nat
  deriving DecidableEq

/-- src/uv_os.c:250-288: the candidate-size loop of `probeDirectIO`.
Starting from the given size, while `size >= 512`: allocate an aligned
buffer with `raft_aligned_alloc(size, size)`, write it, release it with
`raft_free`, accept the size on a positive full write, keep halving on
Eio/Eopnotsupp, succeed with size 0 on Einval at exactly 4096, and fail
with the write errno otherwise.  Falling out of the loop yields size 0. -/
def probeDirectIoLoop (env : DirectEnv) (size : Nat) : LoopRes :=
  if _h : 512 ≤ size then
    if env.allocFails size then
      { out := .error (.msgErr "cannot allocate write buffer"), heap := [], attempts := [size] }
    else
      match env.write size with
      | .wrote n =>
        if 0 < n then
          if n = size then
            { out := .ok size, heap := [.allocAligned size size, .freePlain],
              attempts := [size] }
          else
            { out := .fault, heap := [.allocAligned size size, .freePlain],
              attempts := [size] }
        else
          { out := .fault, heap := [.allocAligned size size, .freePlain],
            attempts := [size] }
      | .fail e =>
        if e ≠ Eio ∧ e ≠ Eopnotsupp then
          if e = Einval ∧ size = 4096 then
            { out := .ok 0, heap := [.allocAligned size size, .freePlain],
              attempts := [size] }
          else
            { out := .error (.syscallErr "write" e),
              heap := [.allocAligned size size, .freePlain], attempts := [size] }
        else
          let r := probeDirectIoLoop env (size / 2)
          { out := r.out, heap := .allocAligned size size :: .freePlain :: r.heap,
            attempts := size :: r.attempts }
  else
    { out := .ok 0, heap := [], attempts := [] }
termination_by size
decreasing_by omega

/-- src/uv_os.c:214-289: `probeDirectIO`.  If enabling O_DIRECT fails with
an errno other than Einval, fail; on Einval, consult `fstatfs` and accept
exactly the TMPFS and ZFS magic numbers as "block size 0, success", failing
with an unsupported-filesystem error on any other type.  If enabling
succeeds, run the candidate-size loop starting at 4096. -/
def probeDirectIo (env : DirectEnv) : LoopRes :=
  match env.fcntlErr with
  | some e =>
    if e ≠ Einval then
      { out := .error (.syscallErr "fnctl" e), heap := [], attempts := [] }
    else
      match env.fstatfsRes with
      | .error e2 => { out := .error (.syscallErr "fstatfs" e2), heap := [], attempts := [] }
      | .ok ftype =>
        if ftype = TMPFS_MAGIC ∨ ftype = ZFS_MAGIC then
          { out := .ok 0, heap := [], attempts := [] }
        else
          { out := .error (.unsupportedFs ftype), heap := [], attempts := [] }
  | none => probeDirectIoLoop env 4096

/-- Kernel behaviour seen by `probeAsyncIo`: outcomes of `io_setup`, the
aligned buffer allocation, `io_submit`, the event count returned by
`UvOsIoGetevents`, the completion result `event.res`, and `io_destroy`
(`none` = the call succeeded). -/
structure AsyncEnv where
  ioSetupErr : Option Nat
  allocFails : Bool
  ioSubmitErr : Option Nat
  geteventsRet : Int
  eventRes : Int
  ioDestroyErr : Option Nat

/-- Return of `probeAsyncIO`: success carrying the `*ok` flag, an error,
or an assertion failure. -/
inductive AsyncOut where
  | ok (okFlag : Bool)
  | error (e : UvErr)
  | fault
  deriving DecidableEq

/-- Result record of the async-I/O probe: returned value and heap trace. -/
structure AsyncRes where
  out : AsyncOut
  heap : List HeapEvent
  deriving DecidableEq

/-- src/uv_os.c:291-372: `probeAsyncIO` (compiled when RWF_NOWAIT is
defined).  Set up a KAIO context, allocate an aligned buffer of the probed
block size with `raft_aligned_alloc(size, size)`, submit one write flagged
RWF_NOWAIT|RWF_DSYNC, and wait for its completion.  A submission failure
with Eopnotsupp yields `ok = false` (success); the buffer is released with
`raft_free` on every path that reaches it. -/
def probeAsyncIo (env : AsyncEnv) (size : Nat) : AsyncRes :=
  match env.ioSetupErr with
  | some e => { out := .error (.syscallErr "io_setup" e), heap := [] }
  | none =>
    if env.allocFails then
      { out := .error (.msgErr "cannot allocate write buffer"), heap := [] }
    else
      match env.ioSubmitErr with
      | some e =>
        if e = Eopnotsupp then
          { out := .ok false, heap := [.allocAligned size size, .freePlain] }
        else
          { out := .error (.msgErr "cannot allocate write buffer"),
            heap := [.allocAligned size size, .freePlain] }
      | none =>
        if env.geteventsRet = 1 then
          match env.ioDestroyErr with
          | some e2 =>
            { out := .error (.syscallErr "io_destroy" e2),
              heap := [.allocAligned size size, .freePlain] }
          | none =>
            if 0 < env.eventRes then
              if env.eventRes = (size : Int) then
                { out := .ok true, heap := [.allocAligned size size, .freePlain] }
              else
                { out := .fault, heap := [.allocAligned size size, .freePlain] }
            else
              if env.eventRes = (Eagain : Int) then
                { out := .fault, heap := [.allocAligned size size, .freePlain] }
              else
                { out := .ok false, heap := [.allocAligned size size, .freePlain] }
        else
          { out := .fault, heap := [.allocAligned size size] }

/-- Environment of a whole `uvProbeIoCapabilities` run: `mkstemp` outcome
(`none` = a descriptor was created), the `posix_fallocate` return value
(an error number, 0 on success), the direct-I/O probe environment, whether
the platform defines RWF_NOWAIT, and the async-I/O probe environment. -/
structure ProbeEnv where
  mkstempErr : Option Nat
  fallocateRv : Nat
  dio : DirectEnv
  rwfNowait : Bool
  aio : AsyncEnv

/-- Return of `uvProbeIoCapabilities`: 0 with the probed `*direct` and
`*async` values, UV__ERROR with the recorded message, or an abort coming
from an assertion in one of the probes. -/
inductive ProbeOut where
  | ok (direct : Nat) (async : Bool)
  | error (e : UvErr)
  | fault
  deriving DecidableEq

/-- Observable outcome of a `uvProbeIoCapabilities` run: the returned
value, whether `probeAsyncIO` was invoked, whether the scratch file still
has a name in the directory when the function is left, whether the probe
descriptor is still open at that point, and the heap trace. -/
structure ProbeRun where
  out : ProbeOut
  asyncRan : Bool
  fileRemains : Bool
  fdOpen : Bool
  heap : List HeapEvent
  deriving DecidableEq

/-- src/uv_os.c:374-434: `uvProbeIoCapabilities`.  Create the scratch file
with `mkstemp`, pre-size it with `posix_fallocate(fd, 0, 4096)` (closing
the descriptor and leaving the file in place on failure), then `unlink` it,
run `probeDirectIO`, and — only when RWF_NOWAIT is defined and the probed
block size is positive — run `probeAsyncIO`; otherwise `*async` is set to
false.  Every return path closes the descriptor. -/
def uvProbeIoCapabilities (env : ProbeEnv) : ProbeRun :=
  match env.mkstempErr with
  | some e =>
    { out := .error (.syscallErr "mkstemp" e), asyncRan := false,
      fileRemains := false, fdOpen := false, heap := [] }
  | none =>
    if env.fallocateRv ≠ 0 then
      { out := .error (.syscallErr "posix_fallocate" env.fallocateRv), asyncRan := false,
        fileRemains := true, fdOpen := false, heap := [] }
    else
      let d := probeDirectIo env.dio
      match d.out with
      | .error e =>
        { out := .error e, asyncRan := false, fileRemains := false,
          fdOpen := false, heap := d.heap }
      | .fault =>
        { out := .fault, asyncRan := false, fileRemains := false,
          fdOpen := true, heap := d.heap }
      | .ok direct =>
        if env.rwfNowait = false then
          { out := .ok direct false, asyncRan := false, fileRemains := false,
            fdOpen := false, heap := d.heap }
        else
          if direct = 0 then
            { out := .ok 0 false, asyncRan := false, fileRemains := false,
              fdOpen := false, heap := d.heap }
          else
            let a := probeAsyncIo env.aio direct
            match a.out with
            | .error e =>
              { out := .error e, asyncRan := true, fileRemains := false,
                fdOpen := false, heap := d.heap ++ a.heap }
            | .fault =>
              { out := .fault, asyncRan := true, fileRemains := false,
                fdOpen := true, heap := d.heap ++ a.heap }
            | .ok b =>
              { out := .ok direct b, asyncRan := true, fileRemains := false,
                fdOpen := false, heap := d.heap ++ a.heap }

/-- The candidate buffer sizes generated by starting at 4096 and halving
while staying at or above 512. -/
def candidateSizes : List Nat := [4096, 2048, 1024, 512]

/-- Whether the probe write at a given size succeeds (returns a positive
byte count). -/
def writeSucceeds (env : DirectEnv) (s : Nat) : Bool :=
  match env.write s with
  | .wrote n => 0 < n
  | .fail _ => false

/-! ## Concrete probe environments used by witnesses and counterexamples -/

/-- A filesystem whose probe writes always fail with Eio (O_DIRECT enabling
succeeds, allocations succeed). -/
def dioEio : DirectEnv :=
  { fcntlErr := none, fstatfsRes := .ok 0, allocFails := fun _ => false,
    write := fun _ => .fail Eio }

/-- A filesystem accepting every aligned probe write in full. -/
def dioOk : DirectEnv :=
  { fcntlErr := none, fstatfsRes := .ok 0, allocFails := fun _ => false,
    write := fun s => .wrote s }

/-- A filesystem rejecting aligned writes above 1024 bytes with Eio and
accepting them in full at 1024 and below. -/
def dioHalf : DirectEnv :=
  { fcntlErr := none, fstatfsRes := .ok 0, allocFails := fun _ => false,
    write := fun s => if 1024 < s then .fail Eio else .wrote s }

/-- A shim filesystem whose probe writes fail with Einval (the shiftfs
quirk of src/uv_os.c:273-279). -/
def dioEinval : DirectEnv :=
  { fcntlErr := none, fstatfsRes := .ok 0, allocFails := fun _ => false,
    write := fun _ => .fail Einval }

/-- A tmpfs mount: enabling O_DIRECT fails with Einval and `fstatfs`
reports the TMPFS magic number. -/
def dioTmpfs : DirectEnv :=
  { fcntlErr := some Einval, fstatfsRes := .ok TMPFS_MAGIC, allocFails := fun _ => false,
    write := fun _ => .fail Eio }

/-- An async-I/O environment in which everything succeeds and the single
completion reports 4096 bytes written. -/
def aioOk : AsyncEnv :=
  { ioSetupErr := none, allocFails := false, ioSubmitErr := none,
    geteventsRet := 1, eventRes := 4096, ioDestroyErr := none }

/-- A fully successful probe run: 4096-byte direct writes work and the
async probe completes. -/
def cenvOk : ProbeEnv :=
  { mkstempErr := none, fallocateRv := 0, dio := dioOk, rwfNowait := true, aio := aioOk }

/-- A probe run on a tmpfs directory. -/
def cenvTmpfs : ProbeEnv :=
  { mkstempErr := none, fallocateRv := 0, dio := dioTmpfs, rwfNowait := true, aio := aioOk }

/-- A probe run in which `posix_fallocate` fails with Enospc. -/
def cenvFalloc : ProbeEnv :=
  { mkstempErr := none, fallocateRv := Enospc, dio := dioOk, rwfNowait := true, aio := aioOk }

/-- A probe run in which `posix_fallocate` reports Eopnotsupp. -/
def cenvNotsup : ProbeEnv :=
  { mkstempErr := none, fallocateRv := Eopnotsupp, dio := dioOk, rwfNowait := true,
    aio := aioOk }

/-- A concrete allocator table whose slots produce distinguishable effects. -/
def exHeap : raft_heap Nat :=
  { data := 0, mallocSlot := fun _ s => s, freeSlot := fun _ _ => 1,
    callocSlot := fun _ _ _ => 2, reallocSlot := fun _ _ _ => 3,
    alignedAllocSlot := fun _ _ _ => 4, alignedFreeSlot := fun _ _ _ => 5 }

/-! ## Theorems -/

/-- Claim C1: when enabling direct I/O succeeds, `probeDirectIO` tries the
candidate buffer sizes 4096, 2048, 1024, 512 in that order (halving, never
below 512); it reports the first candidate whose full-size write succeeds
as the direct block size and stops there, and when every candidate down to
512 fails it reports block size 0 and returns success. -/
theorem C1_direct_probe_candidate_order (env : DirectEnv)
    (hf : env.fcntlErr = none)
    (ha : ∀ s, env.allocFails s = false)
    (hw : ∀ s n, env.write s = .wrote n → n = s)
    (he : ∀ s e, env.write s = .fail e → e = Eio ∨ e = Eopnotsupp) :
    (probeDirectIo env).out
      = .ok ((candidateSizes.find? (writeSucceeds env)).getD 0)
    ∧ (probeDirectIo env).attempts
      = candidateSizes.takeWhile (fun s => ! writeSucceeds env s)
        ++ (candidateSizes.find? (writeSucceeds env)).toList := by
  have step : ∀ s, 512 ≤ s →
      (∀ r, env.write s = .wrote r → probeDirectIoLoop env s =
        { out := .ok s, heap := [.allocAligned s s, .freePlain], attempts := [s] })
      ∧ (∀ e, env.write s = .fail e → probeDirectIoLoop env s =
        { out := (probeDirectIoLoop env (s / 2)).out,
          heap := .allocAligned s s :: .freePlain :: (probeDirectIoLoop env (s / 2)).heap,
          attempts := s :: (probeDirectIoLoop env (s / 2)).attempts }) := by
    intro s hs
    constructor
    · intro r hr
      have hrs := hw s r hr
      subst hrs
      rw [probeDirectIoLoop]
      simp [hs, ha, hr, show (0:Nat) < r from by omega]
    · intro e hek
      rcases he s e hek with h1 | h1 <;> subst h1 <;>
        · rw [probeDirectIoLoop]
          simp [hs, ha, hek]
  rcases h4 : env.write 4096 with n4 | e4
  · have := (step 4096 (by norm_num)).1 n4 h4
    simp [probeDirectIo, hf, this, candidateSizes, writeSucceeds, h4,
      show 0 < n4 from by have := hw 4096 n4 h4; omega]
  · have s4 := (step 4096 (by norm_num)).2 e4 h4
    rcases h2 : env.write 2048 with n2 | e2
    · have := (step 2048 (by norm_num)).1 n2 h2
      simp [probeDirectIo, hf, s4, this, candidateSizes, writeSucceeds, h4, h2,
        show 0 < n2 from by have := hw 2048 n2 h2; omega]
    · have s2 := (step 2048 (by norm_num)).2 e2 h2
      rcases h1 : env.write 1024 with n1 | e1
      · have := (step 1024 (by norm_num)).1 n1 h1
        simp [probeDirectIo, hf, s4, s2, this, candidateSizes, writeSucceeds, h4, h2, h1,
          show 0 < n1 from by have := hw 1024 n1 h1; omega]
      · have s1 := (step 1024 (by norm_num)).2 e1 h1
        rcases h0 : env.write 512 with n0 | e0
        · have := (step 512 (by norm_num)).1 n0 h0
          simp [probeDirectIo, hf, s4, s2, s1, this, candidateSizes, writeSucceeds,
            h4, h2, h1, h0, show 0 < n0 from by have := hw 512 n0 h0; omega]
        · have s0 := (step 512 (by norm_num)).2 e0 h0
          have bot : probeDirectIoLoop env 256 =
              { out := .ok 0, heap := [], attempts := [] } := by
            rw [probeDirectIoLoop]; norm_num
          simp [probeDirectIo, hf, s4, s2, s1, s0, bot, candidateSizes, writeSucceeds,
            h4, h2, h1, h0]

/-- Witness for C1: on a filesystem refusing 4096 and 2048 but accepting
1024, the probe attempts exactly 4096, 2048, 1024 and reports 1024. -/
theorem C1_direct_probe_candidate_order_witness :
    (probeDirectIo dioHalf).out = .ok 1024
    ∧ (probeDirectIo dioHalf).attempts = [4096, 2048, 1024] := by
  have t := C1_direct_probe_candidate_order dioHalf rfl (fun _ => rfl)
    (fun s n h => by by_cases hc : 1024 < s <;> simp [dioHalf, hc] at h; omega)
    (fun s e h => by
      by_cases hc : 1024 < s <;> simp [dioHalf, hc] at h
      exact Or.inl h.symm)
  simpa [candidateSizes, writeSucceeds, dioHalf] using t

/-- Claim C2: when enabling direct I/O fails with Einval, `probeDirectIO`
consults the filesystem type; exactly the TMPFS and ZFS magic numbers give
block size 0 and success, and every other type yields an
unsupported-filesystem error that is fatal to the whole probe. -/
theorem C2_einval_filesystem_check (env : ProbeEnv) (t : Nat)
    (hm : env.mkstempErr = none) (hfa : env.fallocateRv = 0)
    (hf : env.dio.fcntlErr = some Einval) (hst : env.dio.fstatfsRes = .ok t) :
    ((t = TMPFS_MAGIC ∨ t = ZFS_MAGIC) →
        (probeDirectIo env.dio).out = .ok 0
        ∧ (uvProbeIoCapabilities env).out = .ok 0 false)
    ∧ (¬(t = TMPFS_MAGIC ∨ t = ZFS_MAGIC) →
        (probeDirectIo env.dio).out = .error (.unsupportedFs t)
        ∧ (uvProbeIoCapabilities env).out = .error (.unsupportedFs t)) := by
  constructor
  · intro hcase
    have hp : probeDirectIo env.dio = { out := .ok 0, heap := [], attempts := [] } := by
      simp [probeDirectIo, hf, hst, hcase, Einval]
    refine ⟨by simp [hp], ?_⟩
    cases hrw : env.rwfNowait <;> simp [uvProbeIoCapabilities, hm, hfa, hp, hrw]
  · intro hcase
    have hp : probeDirectIo env.dio
        = { out := .error (.unsupportedFs t), heap := [], attempts := [] } := by
      push_neg at hcase
      simp [probeDirectIo, hf, hst, hcase.1, hcase.2, Einval]
    refine ⟨by simp [hp], ?_⟩
    simp [uvProbeIoCapabilities, hm, hfa, hp]

/-- Witness for C2: a tmpfs directory probes to block size 0 with a
successful overall run. -/
theorem C2_einval_filesystem_check_witness :
    (probeDirectIo cenvTmpfs.dio).out = .ok 0
    ∧ (uvProbeIoCapabilities cenvTmpfs).out = .ok 0 false :=
  (C2_einval_filesystem_check cenvTmpfs TMPFS_MAGIC rfl rfl rfl rfl).1 (Or.inl rfl)

/-- Claim C3: in the candidate-size loop a failing probe write continues to
the next smaller size exactly when the errno is Eio or Eopnotsupp; an
Einval failure at candidate size exactly 4096 reports block size 0 and
succeeds; any other errno is a fatal write error. -/
theorem C3_loop_error_classification (env : DirectEnv) (s e : Nat)
    (hs : 512 ≤ s) (ha : env.allocFails s = false) (hw : env.write s = .fail e) :
    ((e = Eio ∨ e = Eopnotsupp) →
        (probeDirectIoLoop env s).out = (probeDirectIoLoop env (s / 2)).out)
    ∧ (e = Einval → s = 4096 → (probeDirectIoLoop env s).out = .ok 0)
    ∧ (¬(e = Eio ∨ e = Eopnotsupp) → ¬(e = Einval ∧ s = 4096) →
        (probeDirectIoLoop env s).out = .error (.syscallErr "write" e)) := by
  refine ⟨?_, ?_, ?_⟩
  · intro hcase
    rw [probeDirectIoLoop]
    rcases hcase with h1 | h1 <;> subst h1 <;> simp [hs, ha, hw, Eio, Eopnotsupp]
  · intro h1 h2
    subst h1; subst h2
    rw [probeDirectIoLoop]
    simp [hs, ha, hw, Einval, Eio, Eopnotsupp]
  · intro h1 h2
    rw [probeDirectIoLoop]
    push_neg at h1
    simp [hs, ha, hw, h1.1, h1.2, h2]

/-- Witness for C3: an Einval write failure at candidate size 4096 makes
the loop report block size 0. -/
theorem C3_loop_error_classification_witness :
    (probeDirectIoLoop dioEinval 4096).out = .ok 0 :=
  (C3_loop_error_classification dioEinval 4096 Einval (by norm_num) rfl rfl).2.1 rfl rfl

/-- Claim C4: on every successful return of `uvProbeIoCapabilities` a zero
direct block size forces the async flag to false; the async probe runs only
when the platform defines RWF_NOWAIT and the direct block size is positive,
and otherwise the flag is unconditionally false. -/
theorem C4_async_requires_direct (env : ProbeEnv) (d : Nat) (a : Bool)
    (h : (uvProbeIoCapabilities env).out = .ok d a) :
    (d = 0 → a = false)
    ∧ ((uvProbeIoCapabilities env).asyncRan = true → env.rwfNowait = true ∧ 0 < d)
    ∧ (¬(env.rwfNowait = true ∧ 0 < d) → a = false) := by
  rcases hm : env.mkstempErr with _ | e
  case some => simp [uvProbeIoCapabilities, hm] at h
  by_cases hfa : env.fallocateRv ≠ 0
  · simp [uvProbeIoCapabilities, hm, hfa] at h
  rcases hdo : (probeDirectIo env.dio).out with dsize | e | _
  · cases hrw : env.rwfNowait
    · simp [uvProbeIoCapabilities, hm, hfa, hdo, hrw] at h ⊢
      simp [h.2.symm]
    · by_cases hd0 : dsize = 0
      · simp [uvProbeIoCapabilities, hm, hfa, hdo, hrw, hd0] at h ⊢
        simp [h.2.symm]
      · rcases hao : (probeAsyncIo env.aio dsize).out with b | e | _
        · simp [uvProbeIoCapabilities, hm, hfa, hdo, hrw, hd0, hao] at h ⊢
          obtain ⟨hd, hb⟩ := h
          subst hd
          exact ⟨fun h0 => absurd h0 hd0, Nat.pos_of_ne_zero hd0,
            fun h0 => absurd h0 hd0⟩
        · simp [uvProbeIoCapabilities, hm, hfa, hdo, hrw, hd0, hao] at h
        · simp [uvProbeIoCapabilities, hm, hfa, hdo, hrw, hd0, hao] at h
  · simp [uvProbeIoCapabilities, hm, hfa, hdo] at h
  · simp [uvProbeIoCapabilities, hm, hfa, hdo] at h

/-- Witness for C4: a fully successful probe run reaches the async probe
with RWF_NOWAIT defined and a positive direct block size. -/
theorem C4_async_requires_direct_witness :
    cenvOk.rwfNowait = true ∧ 0 < 4096 := by
  have h : (uvProbeIoCapabilities cenvOk).out = .ok 4096 true := by
    simp [uvProbeIoCapabilities, probeDirectIo, probeDirectIoLoop, probeAsyncIo,
      cenvOk, dioOk, aioOk]
  have hr : (uvProbeIoCapabilities cenvOk).asyncRan = true := by
    simp [uvProbeIoCapabilities, probeDirectIo, probeDirectIoLoop, probeAsyncIo,
      cenvOk, dioOk, aioOk]
  exact (C4_async_requires_direct cenvOk 4096 true h).2.1 hr

/-- Claim C5 (code bug): the probe buffers obtained through
`raft_aligned_alloc` are released through the plain `raft_free` path, never
through `raft_aligned_free`, in both the direct-I/O and the async-I/O
probe: the heap traces contain plain-free events and no aligned-free
event, contradicting the allocator-pairing invariant. -/
theorem C5_probe_buffers_released_via_plain_free :
    (probeDirectIo dioEio).heap
      = [.allocAligned 4096 4096, .freePlain, .allocAligned 2048 2048, .freePlain,
         .allocAligned 1024 1024, .freePlain, .allocAligned 512 512, .freePlain]
    ∧ (probeAsyncIo aioOk 4096).heap = [.allocAligned 4096 4096, .freePlain]
    ∧ (probeDirectIo dioEio).heap.any isFreeAligned = false
    ∧ (probeAsyncIo aioOk 4096).heap.any isFreeAligned = false
    ∧ (probeDirectIo dioEio).heap.any isFreePlain = true := by
  refine ⟨?_, ?_, ?_, ?_, ?_⟩ <;>
    simp [probeDirectIo, probeDirectIoLoop, probeAsyncIo, dioEio, aioOk,
      isFreeAligned, isFreePlain, Eio, Eopnotsupp, Einval, Eagain]

/-- Counterexample for C6 as stated: when `posix_fallocate` fails, the
scratch file was not yet unlinked, so it still exists in the directory on
that error exit. -/
theorem C6_claim_counterexample :
    (uvProbeIoCapabilities cenvFalloc).out
      = .error (.syscallErr "posix_fallocate" Enospc)
    ∧ (uvProbeIoCapabilities cenvFalloc).fileRemains = true := by
  constructor <;> simp [uvProbeIoCapabilities, cenvFalloc, Enospc]

/-- Claim C6 (amended): the scratch file is unlinked only after a
successful pre-sizing, so on every exit path the descriptor is closed, and
the scratch file no longer exists in the directory on every exit path
except a pre-sizing (fallocate) failure, where it remains. -/
theorem C6_cleanup_amended (env : ProbeEnv)
    (h : (uvProbeIoCapabilities env).out ≠ .fault) :
    (uvProbeIoCapabilities env).fdOpen = false
    ∧ ((uvProbeIoCapabilities env).fileRemains = true ↔
        env.mkstempErr = none ∧ env.fallocateRv ≠ 0) := by
  rcases hm : env.mkstempErr with _ | e
  case some => simp [uvProbeIoCapabilities, hm]
  by_cases hfa : env.fallocateRv ≠ 0
  · simp [uvProbeIoCapabilities, hm, hfa]
  rcases hdo : (probeDirectIo env.dio).out with dsize | e | _
  · cases hrw : env.rwfNowait
    · simp [uvProbeIoCapabilities, hm, hfa, hdo, hrw]
    · by_cases hd0 : dsize = 0
      · simp [uvProbeIoCapabilities, hm, hfa, hdo, hrw, hd0]
      · rcases hao : (probeAsyncIo env.aio dsize).out with b | e | _
        · simp [uvProbeIoCapabilities, hm, hfa, hdo, hrw, hd0, hao]
        · simp [uvProbeIoCapabilities, hm, hfa, hdo, hrw, hd0, hao]
        · simp [uvProbeIoCapabilities, hm, hfa, hdo, hrw, hd0, hao] at h
  · simp [uvProbeIoCapabilities, hm, hfa, hdo]
  · simp [uvProbeIoCapabilities, hm, hfa, hdo] at h

/-- Witness for the amended C6, at the fallocate-failure run: the
descriptor is closed and the file remains exactly because pre-sizing
failed. -/
theorem C6_cleanup_amended_witness :
    (uvProbeIoCapabilities cenvFalloc).fdOpen = false
    ∧ ((uvProbeIoCapabilities cenvFalloc).fileRemains = true ↔
        cenvFalloc.mkstempErr = none ∧ cenvFalloc.fallocateRv ≠ 0) :=
  C6_cleanup_amended cenvFalloc (by simp [uvProbeIoCapabilities, cenvFalloc, Enospc])

/-- Counterexample for C7 as stated: when native pre-allocation reports
not-supported (Eopnotsupp), `UvOsFallocate` returns the negated error to
its caller — no emulation hides it — and the probe fails with it. -/
theorem C7_claim_counterexample :
    UvOsFallocate Eopnotsupp = -(95 : Int)
    ∧ (uvProbeIoCapabilities cenvNotsup).out
      = .error (.syscallErr "posix_fallocate" Eopnotsupp) := by
  constructor
  · simp [UvOsFallocate, Eopnotsupp]
  · simp [uvProbeIoCapabilities, cenvNotsup, Eopnotsupp]

/-- Claim C7 (amended): this source contains no fallocate emulation:
`UvOsFallocate` surfaces every nonzero `posix_fallocate` result, including
not-supported, as the negated error code, and a nonzero pre-allocation
result is fatal to the capability probe. -/
theorem C7_fallocate_amended (rv : Nat) (hrv : rv ≠ 0) (env : ProbeEnv)
    (hm : env.mkstempErr = none) (hf : env.fallocateRv = rv) :
    UvOsFallocate rv = -(rv : Int)
    ∧ UvOsFallocate rv ≠ 0
    ∧ (uvProbeIoCapabilities env).out = .error (.syscallErr "posix_fallocate" rv) := by
  refine ⟨by simp [UvOsFallocate, hrv], ?_, ?_⟩
  · simp [UvOsFallocate, hrv]
  · simp [uvProbeIoCapabilities, hm, hf, hrv]

/-- Witness for the amended C7 at rv = Eopnotsupp. -/
theorem C7_fallocate_amended_witness :
    UvOsFallocate Eopnotsupp = -(Eopnotsupp : Int)
    ∧ UvOsFallocate Eopnotsupp ≠ 0
    ∧ (uvProbeIoCapabilities cenvNotsup).out
      = .error (.syscallErr "posix_fallocate" Eopnotsupp) :=
  C7_fallocate_amended Eopnotsupp (by decide) cenvNotsup rfl rfl

/-- Claim C8: `uvReadFully` requesting `n` bytes fails with a generic I/O
error when the read returns negative, fails with the NoData short-read
condition carrying both the actual and the requested counts when fewer
than `n` bytes arrive, and returns success on exactly `n` bytes. -/
theorem C8_uvReadFully_outcomes (n k e : Nat) :
    uvReadFully n (.err e) = .uvError "read" e
    ∧ (k < n → uvReadFully n (.ok k) = .nodata k n)
    ∧ uvReadFully n (.ok n) = .ok := by
  refine ⟨rfl, fun hk => by simp [uvReadFully, hk], by simp [uvReadFully]⟩

/-- Witness for C8 at n = 8: a 7-byte yield gives NoData with both counts,
an errno gives the generic error, 8 bytes give success. -/
theorem C8_uvReadFully_outcomes_witness :
    uvReadFully 8 (.ok 7) = .nodata 7 8
    ∧ uvReadFully 8 (.err 5) = .uvError "read" 5
    ∧ uvReadFully 8 (.ok 8) = .ok := by
  have t := C8_uvReadFully_outcomes 8 7 5
  exact ⟨t.2.1 (by norm_num), t.1, t.2.2⟩

/-- A non-Eintr outcome found by the retry loop was among the syscall
outcomes and is not Eintr. -/
theorem ioGeteventsRetry_err_mem {calls : List SysOutcome} {e : Nat}
    (h : ioGeteventsRetry calls = some (.err e)) :
    SysOutcome.err e ∈ calls ∧ e ≠ Eintr := by
  induction calls with
  | nil => simp [ioGeteventsRetry] at h
  | cons c rest ih =>
    cases c with
    | ok rv => simp [ioGeteventsRetry] at h
    | err e2 =>
      by_cases he : e2 = Eintr
      · rw [ioGeteventsRetry, if_pos he] at h
        exact ⟨List.mem_cons_of_mem _ (ih h).1, (ih h).2⟩
      · rw [ioGeteventsRetry, if_neg he] at h
        simp at h
        subst h
        exact ⟨List.mem_cons_self _ _, he⟩

/-- Claim C9: `UvOsIoGetevents` retries the completion wait on Eintr so an
interruption is never surfaced as an error; any other failing errno is
returned negated; a successful return lies within `[min_nr, max_nr]`. -/
theorem C9_getevents_retry (mn mx : Nat) (calls : List SysOutcome)
    (hc : ∀ e, SysOutcome.err e ∈ calls → 0 < e) :
    UvOsIoGetevents mn mx (SysOutcome.err Eintr :: calls) = UvOsIoGetevents mn mx calls
    ∧ (∀ e, e ≠ Eintr →
        UvOsIoGetevents mn mx (SysOutcome.err e :: calls) = some (-(e : Int)))
    ∧ (∀ v, UvOsIoGetevents mn mx calls = some v →
        v ≠ -(Eintr : Int) ∧ (0 ≤ v → (mn : Int) ≤ v ∧ v ≤ (mx : Int))) := by
  refine ⟨?_, ?_, ?_⟩
  · simp [UvOsIoGetevents, ioGeteventsRetry]
  · intro e he
    simp [UvOsIoGetevents, ioGeteventsRetry, he]
  · intro v hv
    unfold UvOsIoGetevents at hv
    rcases hr : ioGeteventsRetry calls with _ | o
    · rw [hr] at hv; simp at hv
    rcases o with rv | e
    · rw [hr] at hv
      simp at hv
      obtain ⟨hrange, hveq⟩ := hv
      subst hveq
      refine ⟨by simp [Eintr], fun _ => ?_⟩
      exact_mod_cast hrange
    · rw [hr] at hv
      simp at hv
      subst hv
      obtain ⟨hmem, hne⟩ := ioGeteventsRetry_err_mem hr
      have hpos := hc e hmem
      constructor
      · intro hcontra
        have : e = Eintr := by
          simp [Eintr] at hcontra ⊢
          omega
        exact hne this
      · intro h0
        omega

/-- Witness for C9: with one pending completion, a leading Eintr is
retried away, a genuine Eio failure comes back negated, and the success
value 1 lies within [1, 1]. -/
theorem C9_getevents_retry_witness :
    UvOsIoGetevents 1 1 [SysOutcome.err Eintr, SysOutcome.ok 1]
      = UvOsIoGetevents 1 1 [SysOutcome.ok 1]
    ∧ UvOsIoGetevents 1 1 [SysOutcome.err Eio, SysOutcome.ok 1] = some (-(Eio : Int))
    ∧ ((1 : Int) ≠ -(Eintr : Int)
        ∧ (0 ≤ (1 : Int) → ((1 : Nat) : Int) ≤ (1 : Int) ∧ (1 : Int) ≤ ((1 : Nat) : Int))) := by
  have t := C9_getevents_retry 1 1 [SysOutcome.ok 1] (by intro e he; simp at he)
  exact ⟨t.1, t.2.1 Eio (by decide), t.2.2 1 (by decide)⟩

/-- Claim C10: for every installed allocator table, freeing a null pointer
through `heapFree`/`raft_free` invokes no slot at all, while
`raft_aligned_free` on a null pointer unconditionally invokes the
aligned_free slot with that null pointer; the null guard exists only on
the plain-free path. -/
theorem C10_null_free_guard {ε : Type} (hp : raft_heap ε) (alignment : Nat) :
    heapFree hp Ptr.null = []
    ∧ raft_free hp Ptr.null = []
    ∧ raft_aligned_free hp alignment Ptr.null
        = [hp.alignedFreeSlot hp.data alignment Ptr.null]
    ∧ (∀ p, p ≠ Ptr.null → raft_free hp p = [hp.freeSlot hp.data p]) := by
  refine ⟨rfl, rfl, rfl, fun p hpn => by simp [raft_free, heapFree, hpn]⟩

/-- Witness for C10 on a concrete allocator table: null plain-free invokes
nothing, null aligned-free invokes the aligned_free slot, and a non-null
plain-free invokes the free slot. -/
theorem C10_null_free_guard_witness :
    heapFree exHeap Ptr.null = []
    ∧ raft_free exHeap Ptr.null = []
    ∧ raft_aligned_free exHeap 16 Ptr.null
        = [exHeap.alignedFreeSlot exHeap.data 16 Ptr.null]
    ∧ raft_free exHeap (Ptr.valid 7) = [exHeap.freeSlot exHeap.data (Ptr.valid 7)] := by
  have t := C10_null_free_guard exHeap 16
  exact ⟨t.1, t.2.1, t.2.2.1, t.2.2.2 (Ptr.valid 7) (by decide)⟩
